import Mathlib

/-!
Shallow embedding of `dairy_dashboard.py` (a small dairy MIS): the pricing
formulas, the report aggregation, and the SQLite-backed customer/entry
operations, modelled over exact rationals (`ℚ`) for Python floats, `ℕ` day
ordinals for ISO dates (ISO strings order like dates), and explicit record
states for the three database tables.
-/

/-- Round an exact rational to the nearest integer, ties to even
(the idealisation of Python 3's built-in `round` on exact values). -/
def rhe (x : ℚ) : ℤ :=
  let f := ⌊x⌋
  let r := x - (f : ℚ)
  if r < 1/2 then f
  else if 1/2 < r then f + 1
  else if Even f then f else f + 1

/-- Source `round(x, 2)`: round to 2 decimal places. -/
def round2 (x : ℚ) : ℚ := ((rhe (100 * x) : ℚ)) / 100

/-- The single `settings` row: `base_fat, base_snf, base_rate, fat_rate,
snf_rate` (source schema lines 37-44). -/
structure SRow where
  base_fat : ℚ
  base_snf : ℚ
  base_rate : ℚ
  fat_rate : ℚ
  snf_rate : ℚ
deriving DecidableEq

/-- The schema defaults `(3.5, 8.5, 30.0, 4.0, 2.0)` inserted by `init_db`. -/
def defaultSettings : SRow :=
  { base_fat := 3.5, base_snf := 8.5, base_rate := 30.0, fat_rate := 4.0, snf_rate := 2.0 }

/-- Source `compute_rate_and_amount(fat, snf, qty_liters, srow)` (lines 146-156):
`rate = round(base_rate + (fat-base_fat)*fat_rate + (snf-base_snf)*snf_rate, 2)`,
`amount = round(max(0.0, rate) * qty_liters, 2)`. -/
def compute_rate_and_amount (fat snf qty_liters : ℚ) (srow : SRow) : ℚ × ℚ :=
  let rate := round2 (srow.base_rate + (fat - srow.base_fat) * srow.fat_rate
    + (snf - srow.base_snf) * srow.snf_rate)
  let amount := round2 (max 0.0 rate * qty_liters)
  (rate, amount)

/-- Source `snf_from_lr(lr, temp_c, fat)` (lines 159-166):
`clr = lr + (temp_c - 27.0) * 0.2`; `snf = clr/4 + 0.21*fat + 0.36`, rounded. -/
def snf_from_lr (lr temp_c fat : ℚ) : ℚ :=
  let clr := lr + (temp_c - 27.0) * 0.2
  let snf := (clr / 4.0) + (0.21 * fat) + 0.36
  round2 snf

/-- A row of the `entries` table (source schema lines 58-71), joined shape used
by the report page. `entry_date` is the day ordinal of the ISO date (ISO
`yyyy-mm-dd` strings compare like the dates they denote). -/
structure EntryRec where
  id : ℤ
  entry_date : ℕ
  customer_id : ℤ
  qty_liters : ℚ
  fat : ℚ
  snf : ℚ
  rate : ℚ
  amount : ℚ
  notes : String
deriving DecidableEq

/-- The four headline metrics of `page_reports`. -/
structure Summary where
  total_liters : ℚ
  avg_fat : ℚ
  avg_snf : ℚ
  total_amount : ℚ
deriving DecidableEq

/-- The headline metrics of `page_reports` (source lines 340-343):
`total_liters = sum(qty)`, `avg_fat = sum(fat*qty)/total_liters` if
`total_liters` is nonzero else 0.0, likewise `avg_snf`,
`total_amount = sum(amount)`. -/
def summarize (rows : List EntryRec) : Summary :=
  let total_liters := (rows.map (·.qty_liters)).sum
  { total_liters := total_liters,
    avg_fat := if total_liters = 0 then 0.0
      else (rows.map (fun e => e.fat * e.qty_liters)).sum / total_liters,
    avg_snf := if total_liters = 0 then 0.0
      else (rows.map (fun e => e.snf * e.qty_liters)).sum / total_liters,
    total_amount := (rows.map (·.amount)).sum }

/-- One row of the `df_daily` dataframe of `page_reports`. -/
structure DayRow where
  entry_date : ℕ
  total_liters : ℚ
  avg_fat : ℚ
  avg_snf : ℚ
  total_amount : ℚ
deriving DecidableEq

/-- The daily-summary dataframe (source lines 355-362): pandas
`groupby("entry_date")` groups on the distinct dates in ascending order and
aggregates each group with `sum` for liters and amount and the unweighted
`mean` for fat and snf. -/
def daily_summary (rows : List EntryRec) : List DayRow :=
  (List.insertionSort (· ≤ ·) (rows.map (·.entry_date)).dedup).map fun d =>
    let g := rows.filter fun e => e.entry_date == d
    { entry_date := d,
      total_liters := (g.map (·.qty_liters)).sum,
      avg_fat := (g.map (·.fat)).sum / (g.length : ℚ),
      avg_snf := (g.map (·.snf)).sum / (g.length : ℚ),
      total_amount := (g.map (·.amount)).sum }

/-- Two same-date entries with unequal quantities (qty=30, fat=4 and qty=10,
fat=2), used to exhibit the weighted/unweighted divergence. -/
def divergenceRows : List EntryRec :=
  [{ id := 1, entry_date := 1, customer_id := 1, qty_liters := 30, fat := 4, snf := 8.5,
     rate := 32, amount := 960, notes := "" },
   { id := 2, entry_date := 1, customer_id := 1, qty_liters := 10, fat := 2, snf := 8.5,
     rate := 19, amount := 190, notes := "" }]

/-- A row of the `customers` table (source schema lines 48-56). -/
structure Customer where
  id : ℤ
  name : String
  phone : String
  address : String
  notes : String
deriving DecidableEq

/-- Python's `str.strip()`: drop surrounding whitespace. -/
def strip (s : String) : String :=
  ⟨((s.data.dropWhile Char.isWhitespace).reverse.dropWhile Char.isWhitespace).reverse⟩

/-- The persistent state: the singleton settings row, the `customers` and
`entries` tables, and the AUTOINCREMENT counters for the two row ids. -/
structure DB where
  settings : SRow
  customers : List Customer
  entries : List EntryRec
  next_customer_id : ℤ
  next_entry_id : ℤ
deriving DecidableEq

/-- Errors surfaced by the storage operations: `integrityError` models the
`sqlite3.IntegrityError` a violated UNIQUE constraint raises, `valueError` the
Python `ValueError` raised explicitly by `delete_customer`. -/
inductive DBErr where
  | integrityError (msg : String)
  | valueError (msg : String)
deriving DecidableEq

/-- The freshly initialised database of `init_db` (source lines 34-71):
default settings row, empty tables, AUTOINCREMENT ids starting at 1. -/
def initDB : DB :=
  { settings := defaultSettings, customers := [], entries := [],
    next_customer_id := 1, next_entry_id := 1 }

/-- Source `update_settings` (lines 79-85): overwrite all five fields of the
single settings row. -/
def update_settings (db : DB) (base_fat base_snf base_rate fat_rate snf_rate : ℚ) : DB :=
  { db with settings :=
      { base_fat := base_fat, base_snf := base_snf, base_rate := base_rate,
        fat_rate := fat_rate, snf_rate := snf_rate } }

/-- The INSERT arm of `upsert_customer` (source lines 97-101): all text fields
stripped before storage; the UNIQUE constraint on `name` makes a colliding
insert raise `sqlite3.IntegrityError`; AUTOINCREMENT assigns the next row id,
which is returned as `cur.lastrowid`. -/
def insert_customer (db : DB) (name phone address notes : String) : Except DBErr (DB × ℤ) :=
  if db.customers.any fun c => c.name == strip name then
    .error (.integrityError "UNIQUE constraint failed: customers.name")
  else
    .ok ({ db with
      customers := db.customers ++
        [{ id := db.next_customer_id, name := strip name, phone := strip phone,
           address := strip address, notes := strip notes }],
      next_customer_id := db.next_customer_id + 1 }, db.next_customer_id)

/-- Source `upsert_customer` (lines 88-101). Python's `if customer_id:` is
falsy for both `None` and `0`, so those take the INSERT arm; otherwise the
UPDATE arm rewrites the matching row in place (stripping all text fields) and
returns the given id, updating nothing when no row has that id. An UPDATE
that would rename a row to another row's name violates the UNIQUE constraint
and raises `sqlite3.IntegrityError`, changing nothing. -/
def upsert_customer (db : DB) (name phone address notes : String)
    (customer_id : Option ℤ) : Except DBErr (DB × ℤ) :=
  match customer_id with
  | none => insert_customer db name phone address notes
  | some cid =>
    if cid = 0 then insert_customer db name phone address notes
    else if (db.customers.any fun c => c.id == cid)
        && (db.customers.any fun c => c.id != cid && c.name == strip name) then
      .error (.integrityError "UNIQUE constraint failed: customers.name")
    else
      .ok ({ db with customers := db.customers.map fun c =>
        if c.id = cid then
          { c with name := strip name, phone := strip phone,
                   address := strip address, notes := strip notes }
        else c }, cid)

/-- Source `delete_customer` (lines 104-109): counts the referencing entries,
raises `ValueError` when any exist, otherwise deletes the customer row. -/
def delete_customer (db : DB) (customer_id : ℤ) : Except DBErr DB :=
  if 0 < db.entries.countP (fun e => e.customer_id == customer_id) then
    .error (.valueError "Cannot delete: milk collection entries exist for this customer.")
  else
    .ok { db with customers := db.customers.filter fun c => c.id != customer_id }

/-- Source `add_entry` (lines 117-122): a plain INSERT of the given values.
The schema declares `FOREIGN KEY (customer_id) REFERENCES customers(id)`, but
the connection never issues `PRAGMA foreign_keys = ON` and sqlite leaves
foreign-key enforcement off by default, so the insert succeeds whether or not
the referenced customer exists. -/
def add_entry (db : DB) (entry_date : ℕ) (customer_id : ℤ)
    (qty_liters fat snf rate amount : ℚ) (notes : String) : DB :=
  { db with
    entries := db.entries ++
      [{ id := db.next_entry_id, entry_date := entry_date, customer_id := customer_id,
         qty_liters := qty_liters, fat := fat, snf := snf, rate := rate,
         amount := amount, notes := strip notes }],
    next_entry_id := db.next_entry_id + 1 }

/-- The Save-Entry flow of `page_entry` (source lines 301-308): rate and amount
are computed by `compute_rate_and_amount` from the settings current at that
moment; a non-positive quantity is rejected, otherwise the snapshot is stored
via `add_entry`. -/
def save_entry (db : DB) (entry_date : ℕ) (customer_id : ℤ) (qty fat snf : ℚ)
    (notes : String) : Except DBErr DB :=
  if qty ≤ 0 then .error (.valueError "Quantity must be positive.")
  else
    let ra := compute_rate_and_amount fat snf qty db.settings
    .ok (add_entry db entry_date customer_id qty fat snf ra.1 ra.2 notes)

/-- A database holding one customer (id 1) and one entry referencing it. -/
def dbOneEntry : DB :=
  { settings := defaultSettings,
    customers := [{ id := 1, name := "Asha", phone := "", address := "", notes := "" }],
    entries := [{ id := 1, entry_date := 1, customer_id := 1, qty_liters := 10, fat := 4,
                  snf := 8.5, rate := 32, amount := 320, notes := "" }],
    next_customer_id := 2, next_entry_id := 2 }

/-- A database holding one customer (id 1) and no entries. -/
def dbOneCustomer : DB :=
  { settings := defaultSettings,
    customers := [{ id := 1, name := "Asha", phone := "", address := "", notes := "" }],
    entries := [], next_customer_id := 2, next_entry_id := 1 }

/-- On integers, `rhe` is the identity. -/
lemma rhe_intCast (n : ℤ) : rhe (n : ℚ) = n := by
  unfold rhe
  simp only [Int.floor_intCast, sub_self]
  norm_num

/-- Evaluation lemma for `round2` at values that are exact multiples of `1/100`. -/
lemma round2_eq (x : ℚ) (n : ℤ) (h : 100 * x = (n : ℚ)) : round2 x = (n : ℚ) / 100 := by
  unfold round2
  rw [h, rhe_intCast]

/-- The raw rate at the default settings with fat=4.0, snf=8.5 rounds to 32. -/
lemma round2_default_raw_rate :
    round2 (defaultSettings.base_rate + (4.0 - defaultSettings.base_fat)
      * defaultSettings.fat_rate + (8.5 - defaultSettings.base_snf) * defaultSettings.snf_rate)
      = 32 := by
  rw [round2_eq _ 3200 (by norm_num [defaultSettings])]
  norm_num

/-- C1: `compute_rate_and_amount` returns
`rate = round(base_rate + (fat-base_fat)*fat_rate + (snf-base_snf)*snf_rate, 2)` and
`amount = round(max(0.0, rate) * qty_liters, 2)`; in particular at the default
settings `(3.5, 8.5, 30.0, 4.0, 2.0)` with fat=4.0, snf=8.5, qty=10.0 it
returns rate=32.00 and amount=320.00. -/
theorem compute_rate_and_amount_spec (fat snf qty_liters : ℚ) (s : SRow) :
    compute_rate_and_amount fat snf qty_liters s =
      (round2 (s.base_rate + (fat - s.base_fat) * s.fat_rate + (snf - s.base_snf) * s.snf_rate),
       round2 (max 0.0 (round2 (s.base_rate + (fat - s.base_fat) * s.fat_rate
         + (snf - s.base_snf) * s.snf_rate)) * qty_liters))
    ∧ compute_rate_and_amount 4.0 8.5 10.0 defaultSettings = (32.00, 320.00) := by
  refine ⟨rfl, ?_⟩
  show (round2 _, round2 (max 0.0 (round2 _) * _)) = _
  rw [round2_default_raw_rate, max_eq_right (by norm_num : (0.0:ℚ) ≤ 32),
    round2_eq _ 32000 (by norm_num)]
  norm_num

/-- C2 counterexample: the source clamps the rate but not the quantity, so with
the default settings, fat=4.0, snf=8.5 and qty = -10 (a "real input" the claim
says is accepted) the returned amount is -320, which is negative. -/
theorem amount_negative_at_negative_qty :
    (compute_rate_and_amount 4.0 8.5 (-10) defaultSettings).2 = -320
    ∧ (compute_rate_and_amount 4.0 8.5 (-10) defaultSettings).2 < 0 := by
  have h2 : (compute_rate_and_amount 4.0 8.5 (-10) defaultSettings).2 = -320 := by
    show round2 (max 0.0 (round2 _) * _) = _
    rw [round2_default_raw_rate, max_eq_right (by norm_num : (0.0:ℚ) ≤ 32),
      round2_eq _ (-32000) (by norm_num)]
    norm_num
  exact ⟨h2, by rw [h2]; norm_num⟩

/-- For a nonnegative rational, `rhe` is nonnegative. -/
lemma rhe_nonneg (x : ℚ) (hx : 0 ≤ x) : 0 ≤ rhe x := by
  have hf : (0:ℤ) ≤ ⌊x⌋ := Int.le_floor.mpr (by exact_mod_cast hx)
  simp only [rhe]
  split_ifs <;> omega

/-- For a nonnegative rational, `round2` is nonnegative. -/
lemma round2_nonneg (x : ℚ) (hx : 0 ≤ x) : 0 ≤ round2 x := by
  unfold round2
  have h := rhe_nonneg (100 * x) (by positivity)
  exact div_nonneg (by exact_mod_cast h) (by norm_num)

/-- C2 (amended): since the computed rate is clamped at zero, the amount is
nonnegative whenever `qty_liters` is nonnegative — but not for negative
quantities, which the function also accepts. -/
theorem amount_nonneg_of_qty_nonneg (fat snf qty_liters : ℚ) (s : SRow)
    (hq : 0 ≤ qty_liters) : 0 ≤ (compute_rate_and_amount fat snf qty_liters s).2 := by
  show 0 ≤ round2 (max 0.0 (round2 _) * qty_liters)
  refine round2_nonneg _ (mul_nonneg ?_ hq)
  calc (0:ℚ) = 0.0 := by norm_num
  _ ≤ max 0.0 _ := le_max_left _ _

/-- Witness for the amended C2: at fat=2.0, snf=6.0, qty=10.0 the hypothesis
`0 ≤ qty` holds and the amount is nonnegative. -/
theorem amount_nonneg_of_qty_nonneg_witness :
    0 ≤ (compute_rate_and_amount 2.0 6.0 10.0 defaultSettings).2 :=
  amount_nonneg_of_qty_nonneg 2.0 6.0 10.0 defaultSettings (by norm_num)

/-- The dates listed by `daily_summary` are the sorted distinct entry dates. -/
lemma daily_summary_dates (rows : List EntryRec) :
    (daily_summary rows).map (·.entry_date)
      = List.insertionSort (· ≤ ·) (rows.map (·.entry_date)).dedup := by
  simp only [daily_summary, List.map_map]
  show List.map (fun d => d) _ = _
  exact List.map_id _

/-- C3: `summarize` returns quantity-weighted means of fat and snf (0.0 on zero
total liters), while `daily_summary` groups by entry date in ascending order
and returns per group the summed liters and amount but the unweighted
arithmetic means of fat and snf; on two same-date entries (qty=30, fat=4 and
qty=10, fat=2) the weighted average is 3.5 while the unweighted one is 3.0,
and 3.5 and 3.0 differ. -/
theorem summarize_daily_summary_spec (rows : List EntryRec) :
    ((summarize rows).total_liters = (rows.map (·.qty_liters)).sum
      ∧ (summarize rows).avg_fat = (if (rows.map (·.qty_liters)).sum = 0 then 0.0
          else (rows.map fun e => e.fat * e.qty_liters).sum / (rows.map (·.qty_liters)).sum)
      ∧ (summarize rows).avg_snf = (if (rows.map (·.qty_liters)).sum = 0 then 0.0
          else (rows.map fun e => e.snf * e.qty_liters).sum / (rows.map (·.qty_liters)).sum)
      ∧ (summarize rows).total_amount = (rows.map (·.amount)).sum)
    ∧ List.Sorted (· < ·) ((daily_summary rows).map (·.entry_date))
    ∧ (∀ r ∈ daily_summary rows,
        r.total_liters = ((rows.filter fun e => e.entry_date == r.entry_date).map
          (·.qty_liters)).sum
        ∧ r.avg_fat = ((rows.filter fun e => e.entry_date == r.entry_date).map (·.fat)).sum
            / ((rows.filter fun e => e.entry_date == r.entry_date).length : ℚ)
        ∧ r.avg_snf = ((rows.filter fun e => e.entry_date == r.entry_date).map (·.snf)).sum
            / ((rows.filter fun e => e.entry_date == r.entry_date).length : ℚ)
        ∧ r.total_amount = ((rows.filter fun e => e.entry_date == r.entry_date).map
          (·.amount)).sum)
    ∧ (summarize divergenceRows).avg_fat = 3.5
    ∧ daily_summary divergenceRows
        = [{ entry_date := 1, total_liters := 40, avg_fat := 3.0, avg_snf := 8.5,
             total_amount := 1150 }]
    ∧ (3.5 : ℚ) ≠ 3.0 := by
  refine ⟨⟨rfl, rfl, rfl, rfl⟩, ?_, ?_, ?_, ?_, by norm_num⟩
  · rw [daily_summary_dates]
    have hs := List.sorted_insertionSort (α := ℕ) (· ≤ ·) (rows.map (·.entry_date)).dedup
    have hnd : (List.insertionSort (· ≤ ·) (rows.map (·.entry_date)).dedup).Nodup :=
      (List.perm_insertionSort (· ≤ ·) (rows.map (·.entry_date)).dedup).nodup_iff.mpr
        (List.nodup_dedup _)
    exact hs.lt_of_le hnd
  · intro r hr
    simp only [daily_summary, List.mem_map] at hr
    obtain ⟨d, hd, rfl⟩ := hr
    exact ⟨rfl, rfl, rfl, rfl⟩
  · simp [summarize, divergenceRows]
    norm_num
  · simp only [daily_summary]
    rw [show ((divergenceRows.map (·.entry_date)).dedup) = [1] by decide]
    simp [divergenceRows, List.insertionSort, List.orderedInsert, DayRow.mk.injEq]
    norm_num

/-- C9: `snf_from_lr` returns `round((lr + (temp_c - 27.0)*0.2)/4.0
+ 0.21*fat + 0.36, 2)`; in particular `snf_from_lr 30.0 27.0 4.0 = 8.70`. -/
theorem snf_from_lr_spec (lr temp_c fat : ℚ) :
    snf_from_lr lr temp_c fat
      = round2 ((lr + (temp_c - 27.0) * 0.2) / 4.0 + (0.21 * fat) + 0.36)
    ∧ snf_from_lr 30.0 27.0 4.0 = 8.70 := by
  refine ⟨rfl, ?_⟩
  show round2 _ = _
  rw [round2_eq _ 870 (by norm_num)]
  norm_num

/-- C4: replacing all five pricing coefficients touches only the settings row:
every previously stored entry (rate, amount and all other fields) and every
customer row are unchanged. -/
theorem update_settings_frame (db : DB) (bf bs br fr sr : ℚ) :
    (update_settings db bf bs br fr sr).entries = db.entries
    ∧ (update_settings db bf bs br fr sr).customers = db.customers
    ∧ (update_settings db bf bs br fr sr).settings =
        { base_fat := bf, base_snf := bs, base_rate := br, fat_rate := fr, snf_rate := sr } :=
  ⟨rfl, rfl, rfl⟩

/-- C5: a saved entry stores the rate and amount that `compute_rate_and_amount`
yields from the settings current at insertion time, appended to the ledger
(all earlier entries untouched), and the stored pair satisfies
`amount = round(max(0, rate) * qty_liters, 2)`. -/
theorem save_entry_snapshot (db : DB) (d : ℕ) (cid : ℤ) (qty fat snf : ℚ)
    (notes : String) (hq : 0 < qty) :
    save_entry db d cid qty fat snf notes =
      .ok { db with
        entries := db.entries ++
          [{ id := db.next_entry_id, entry_date := d, customer_id := cid,
             qty_liters := qty, fat := fat, snf := snf,
             rate := (compute_rate_and_amount fat snf qty db.settings).1,
             amount := (compute_rate_and_amount fat snf qty db.settings).2,
             notes := strip notes }],
        next_entry_id := db.next_entry_id + 1 }
    ∧ (compute_rate_and_amount fat snf qty db.settings).2
        = round2 (max 0.0 (compute_rate_and_amount fat snf qty db.settings).1 * qty) := by
  constructor
  · simp only [save_entry, if_neg (not_le.mpr hq)]
    rfl
  · rfl

/-- Witness for C5: saving qty=10, fat=4.0, snf=8.5 on the fresh database. -/
theorem save_entry_snapshot_witness :
    save_entry initDB 1 7 10 4.0 8.5 "" =
      .ok { initDB with
        entries := initDB.entries ++
          [{ id := initDB.next_entry_id, entry_date := 1, customer_id := 7,
             qty_liters := 10, fat := 4.0, snf := 8.5,
             rate := (compute_rate_and_amount 4.0 8.5 10 initDB.settings).1,
             amount := (compute_rate_and_amount 4.0 8.5 10 initDB.settings).2,
             notes := strip "" }],
        next_entry_id := initDB.next_entry_id + 1 }
    ∧ (compute_rate_and_amount 4.0 8.5 10 initDB.settings).2
        = round2 (max 0.0 (compute_rate_and_amount 4.0 8.5 10 initDB.settings).1 * 10) :=
  save_entry_snapshot initDB 1 7 10 4.0 8.5 "" (by norm_num)

/-- C6: deleting a customer with at least one referencing entry fails (the
`ValueError` carrying the integrity message, the state untouched); with zero
referencing entries it succeeds, removing exactly that customer row and
leaving settings and entries as they were. -/
theorem delete_customer_spec (db : DB) (cid : ℤ) :
    (0 < db.entries.countP (fun e => e.customer_id == cid) →
      delete_customer db cid =
        .error (.valueError "Cannot delete: milk collection entries exist for this customer."))
    ∧ (db.entries.countP (fun e => e.customer_id == cid) = 0 →
      delete_customer db cid =
        .ok { db with customers := db.customers.filter fun c => c.id != cid }) := by
  constructor
  · intro h
    simp only [delete_customer, if_pos h]
  · intro h
    simp only [delete_customer, h, lt_irrefl, if_false]

/-- Witness for C6: deleting customer 1 fails while an entry references it and
succeeds on the same customer without entries. -/
theorem delete_customer_spec_witness :
    delete_customer dbOneEntry 1 =
      .error (.valueError "Cannot delete: milk collection entries exist for this customer.")
    ∧ delete_customer dbOneCustomer 1 =
      .ok { dbOneCustomer with customers := dbOneCustomer.customers.filter fun c => c.id != 1 } :=
  ⟨(delete_customer_spec dbOneEntry 1).1 (by decide),
   (delete_customer_spec dbOneCustomer 1).2 (by decide)⟩

/-- C7 (code bug): `add_entry` on the freshly initialised database — which has
no customers at all — stores an entry whose `customer_id` is 1 and raises no
error: the declared FOREIGN KEY is never enforced because the sqlite
`foreign_keys` pragma is off by default, so a dangling reference is
observable, contradicting the claimed `ReferenceError`. -/
theorem add_entry_dangling_reference :
    ((add_entry initDB 1 1 10 4 8.5 32 320 "").entries.map (·.customer_id)) = [1]
    ∧ (add_entry initDB 1 1 10 4 8.5 32 320 "").customers = [] :=
  ⟨rfl, rfl⟩

/-- C8: insertion (`customer_id = None`) with a stripped name equal to an
existing customer's name fails with the UNIQUE-constraint `IntegrityError`
(the state untouched); with a non-colliding stripped name it appends a new
row carrying the stripped fields and returns the freshly assigned id. -/
theorem upsert_customer_insert_spec (db : DB) (name phone address notes : String) :
    ((db.customers.any fun c => c.name == strip name) = true →
      upsert_customer db name phone address notes none =
        .error (.integrityError "UNIQUE constraint failed: customers.name"))
    ∧ ((db.customers.any fun c => c.name == strip name) = false →
      upsert_customer db name phone address notes none =
        .ok ({ db with
          customers := db.customers ++
            [{ id := db.next_customer_id, name := strip name, phone := strip phone,
               address := strip address, notes := strip notes }],
          next_customer_id := db.next_customer_id + 1 }, db.next_customer_id)) := by
  constructor
  · intro h
    simp [upsert_customer, insert_customer, h]
  · intro h
    simp [upsert_customer, insert_customer, h]

/-- Witness for C8: inserting " Asha " (strips to the existing "Asha") fails;
inserting "Ravi" succeeds with the next id. -/
theorem upsert_customer_insert_spec_witness :
    upsert_customer dbOneCustomer " Asha " "" "" "" none =
      .error (.integrityError "UNIQUE constraint failed: customers.name")
    ∧ upsert_customer dbOneCustomer "Ravi" "" "" "" none =
      .ok ({ dbOneCustomer with
        customers := dbOneCustomer.customers ++
          [{ id := dbOneCustomer.next_customer_id, name := strip "Ravi",
             phone := strip "", address := strip "", notes := strip "" }],
        next_customer_id := dbOneCustomer.next_customer_id + 1 },
        dbOneCustomer.next_customer_id) :=
  ⟨(upsert_customer_insert_spec dbOneCustomer " Asha " "" "" "").1 (by decide),
   (upsert_customer_insert_spec dbOneCustomer "Ravi" "" "" "").2 (by decide)⟩

/-- C10: calling the upsert with a non-zero id that matches no stored customer
takes the UPDATE arm, which matches no row: no error is raised, every stored
customer (and everything else) is unchanged, and the given id is returned. -/
theorem upsert_customer_missing_id (db : DB) (name phone address notes : String)
    (cid : ℤ) (h0 : cid ≠ 0) (h : ∀ c ∈ db.customers, c.id ≠ cid) :
    upsert_customer db name phone address notes (some cid) = .ok (db, cid) := by
  have hany : (db.customers.any fun c => c.id == cid) = false := by
    rw [List.any_eq_false]
    intro c hc
    simpa using h c hc
  have hmap : (db.customers.map fun c =>
      if c.id = cid then
        { c with name := strip name, phone := strip phone,
                 address := strip address, notes := strip notes }
      else c) = db.customers := by
    have hfun : ∀ c ∈ db.customers, (if c.id = cid then
        { c with name := strip name, phone := strip phone,
                 address := strip address, notes := strip notes }
      else c) = c := by
      intro c hc
      rw [if_neg (h c hc)]
    rw [List.map_congr_left hfun]
    exact List.map_id _
  simp only [upsert_customer, if_neg h0, hany, Bool.false_and, Bool.and_false,
    Bool.false_eq_true, if_false, hmap]

/-- Witness for C10: id 5 is non-zero and absent from the one-customer
database, and the upsert returns that database unchanged together with 5. -/
theorem upsert_customer_missing_id_witness :
    upsert_customer dbOneCustomer "Mira" "99" "x" "y" (some 5) = .ok (dbOneCustomer, 5) :=
  upsert_customer_missing_id dbOneCustomer "Mira" "99" "x" "y" 5 (by decide) (by decide)
